import Mathlib

/-!
Verification of the Qurious chat client core
(src/components/chat-interface.tsx): the persistent history store,
the conversation state, and the backend chat submission handler.

Machine integers do not occur: all times are epoch milliseconds as Nat.
Platform date conversion (ECMAScript Date UTC calendar, proleptic
Gregorian) is modelled explicitly by civilOfDays / daysOfCivil below and
was validated against known calendar dates.
-/

namespace Qurious

/-! ## Calendar model (platform behavior of Date.prototype.toISOString and
    the Date constructor on ISO strings, UTC, proleptic Gregorian) -/

/-- Civil date (year, month, day) of a day count since 1970-01-01,
decomposed hierarchically inside the 400-year Gregorian era:
century (36524 days, the last one 36525), 4-year quad (1461 days,
short quads 1460), year (365 days, the last year of a full quad 366). -/
def civilOfDays (z : Nat) : Nat × Nat × Nat :=
  let zz := z + 719468
  let era := zz / 146097
  let doe := zz % 146097
  let cent := min (doe / 36524) 3
  let dayc := doe - 36524 * cent
  let quad := min (dayc / 1461) 24
  let dayq := dayc - 1461 * quad
  let yq := min (dayq / 365) 3
  let doy := dayq - 365 * yq
  let yoe := 100 * cent + 4 * quad + yq
  let y := yoe + era * 400
  let mp := (5 * doy + 2) / 153
  let d := doy - (153 * mp + 2) / 5 + 1
  let m := if mp < 10 then mp + 3 else mp - 9
  (if m ≤ 2 then y + 1 else y, m, d)

/-- Day count since 1970-01-01 of a civil date (year, month, day),
the classical era-based formula. -/
def daysOfCivil (y m d : Nat) : Nat :=
  let yAdj := if m ≤ 2 then y - 1 else y
  let era := yAdj / 400
  let yoe := yAdj % 400
  let mp := if 2 < m then m - 3 else m + 9
  let doy := (153 * mp + 2) / 5 + d - 1
  let doe := yoe * 365 + yoe / 4 - yoe / 100 + doy
  era * 146097 + doe - 719468

set_option maxHeartbeats 1600000 in
theorem daysOfCivil_inverse_aux (z zz era doe cent dayc quad dayq yq doy yoe y mp d m : Nat)
    (hzz : zz = z + 719468) (hera : era = zz / 146097) (hdoe : doe = zz % 146097)
    (hcent : cent = min (doe / 36524) 3) (hdayc : dayc = doe - 36524 * cent)
    (hquad : quad = min (dayc / 1461) 24) (hdayq : dayq = dayc - 1461 * quad)
    (hyq : yq = min (dayq / 365) 3) (hdoy : doy = dayq - 365 * yq)
    (hyoe : yoe = 100 * cent + 4 * quad + yq) (hy : y = yoe + era * 400)
    (hmp : mp = (5 * doy + 2) / 153) (hd : d = doy - (153 * mp + 2) / 5 + 1)
    (hm : m = if mp < 10 then mp + 3 else mp - 9) :
    daysOfCivil (if m ≤ 2 then y + 1 else y) m d = z := by
  have hdoe1 : doe < 146097 := by omega
  have hc1 : cent ≤ 3 := by omega
  have hc3 : dayc ≤ 36524 := by omega
  have hq1 : quad ≤ 24 := by omega
  have hq3 : dayq ≤ 1460 := by omega
  have hy1 : yq ≤ 3 := by omega
  have hy3 : doy ≤ 365 := by omega
  have hyoe1 : yoe ≤ 399 := by omega
  have hg : yoe * 365 + yoe / 4 - yoe / 100 = 36524 * cent + 1461 * quad + 365 * yq := by
    omega
  have h400a : y / 400 = era := by omega
  have h400b : y % 400 = yoe := by omega
  have hmp1 : mp ≤ 11 := by omega
  have hmp2 : (153 * mp + 2) / 5 ≤ doy := by omega
  have hd1 : (153 * mp + 2) / 5 + d - 1 = doy := by omega
  simp only [daysOfCivil]
  by_cases hlt : mp < 10
  · have hm1 : m = mp + 3 := by rw [hm, if_pos hlt]
    have hm2 : ¬ m ≤ 2 := by omega
    rw [if_neg hm2, if_neg hm2, if_pos (by omega : 2 < m)]
    have hmm : m - 3 = mp := by omega
    rw [hmm, hd1, h400a, h400b, hg]
    omega
  · have hm1 : m = mp - 9 := by rw [hm, if_neg hlt]
    have hm2 : m ≤ 2 := by omega
    rw [if_pos hm2, if_pos hm2, if_neg (by omega : ¬ 2 < m)]
    have hy4 : y + 1 - 1 = y := by omega
    rw [hy4]
    have hmm : m + 9 = mp := by omega
    rw [hmm, hd1, h400a, h400b, hg]
    omega

theorem daysOfCivil_civilOfDays (z : Nat) :
    daysOfCivil (civilOfDays z).1 (civilOfDays z).2.1 (civilOfDays z).2.2 = z := by
  simp only [civilOfDays]
  exact daysOfCivil_inverse_aux z _ _ _ _ _ _ _ _ _ _ _ _ _ _
    rfl rfl rfl rfl rfl rfl rfl rfl rfl rfl rfl rfl rfl rfl

/-- The information content of one ISO-8601 UTC timestamp string
YYYY-MM-DDTHH:MM:SS.mmmZ as produced by Date.prototype.toISOString. -/
structure IsoFields where
  year : Nat
  month : Nat
  day : Nat
  hour : Nat
  minute : Nat
  second : Nat
  ms : Nat
deriving DecidableEq, Repr

/-- Field extraction of an epoch-milliseconds instant, UTC
(models Date.prototype.toISOString). -/
def fieldsOfMillis (t : Nat) : IsoFields :=
  let days := t / 86400000
  let msOfDay := t % 86400000
  let c := civilOfDays days
  { year := c.1, month := c.2.1, day := c.2.2
    hour := msOfDay / 3600000
    minute := msOfDay % 3600000 / 60000
    second := msOfDay % 60000 / 1000
    ms := msOfDay % 1000 }

/-- Reconstruction of the epoch-milliseconds instant from ISO fields
(models parsing an ISO-8601 UTC string with the Date constructor). -/
def millisOfFields (f : IsoFields) : Nat :=
  daysOfCivil f.year f.month f.day * 86400000
    + f.hour * 3600000 + f.minute * 60000 + f.second * 1000 + f.ms

theorem millisOfFields_fieldsOfMillis (t : Nat) :
    millisOfFields (fieldsOfMillis t) = t := by
  simp only [millisOfFields, fieldsOfMillis]
  rw [daysOfCivil_civilOfDays]
  omega

/-- Left zero padding of a decimal numeral. -/
def padNum (w n : Nat) : String :=
  String.mk (List.replicate (w - (toString n).length) '0') ++ toString n

/-- The concrete ISO-8601 string YYYY-MM-DDTHH:MM:SS.mmmZ for given fields. -/
def renderIso (f : IsoFields) : String :=
  padNum 4 f.year ++ "-" ++ padNum 2 f.month ++ "-" ++ padNum 2 f.day ++ "T"
    ++ padNum 2 f.hour ++ ":" ++ padNum 2 f.minute ++ ":" ++ padNum 2 f.second
    ++ "." ++ padNum 3 f.ms ++ "Z"

/-! ## Data model (src/components/chat-interface.tsx, interfaces
    Message and QueryHistory; timestamps are epoch milliseconds) -/

inductive Role
  | user
  | assistant
deriving DecidableEq, Repr

/-- Conversation message (interface Message, lines 13-18). -/
structure Message where
  id : String
  content : String
  role : Role
  timestamp : Nat
deriving DecidableEq, Repr

/-- History entry (interface QueryHistory, lines 20-25). -/
structure QueryHistory where
  id : String
  query : String
  response : String
  timestamp : Nat
deriving DecidableEq, Repr

/-- Persisted shape of one history entry under the queryHistory key:
JSON.stringify turns the Date into its ISO string, represented here by
its fields. -/
structure SerEntry where
  id : String
  query : String
  response : String
  timestamp : IsoFields
deriving DecidableEq, Repr

/-- Serialization of one entry on save (JSON.stringify of updatedHistory,
line 91). -/
def serEntry (e : QueryHistory) : SerEntry :=
  { id := e.id, query := e.query, response := e.response
    timestamp := fieldsOfMillis e.timestamp }

/-- Deserialization of one entry on load: spread plus
timestamp replaced by a Date parsed from the stored string (lines 61-64). -/
def deserEntry (s : SerEntry) : QueryHistory :=
  { id := s.id, query := s.query, response := s.response
    timestamp := millisOfFields s.timestamp }

/-- The value persisted under the queryHistory localStorage key,
classified by how JSON.parse and Array.isArray treat it. -/
inductive StoredPayload
  | emptyString
  | notJson
  | jsonNonArray
  | jsonArray (items : List SerEntry)
deriving DecidableEq, Repr

/-- Serialized chat history element sent to the backend: role, content,
and the timestamp as an ISO-8601 string (lines 121-125). -/
structure SerMsg where
  role : String
  content : String
  timestamp : String
deriving DecidableEq, Repr

def roleString : Role → String
  | .user => "user"
  | .assistant => "assistant"

def serializeMsg (m : Message) : SerMsg :=
  { role := roleString m.role, content := m.content
    timestamp := renderIso (fieldsOfMillis m.timestamp) }

/-! ## History store operations -/

/-- The new history item built in saveToHistory (lines 83-88):
id is Date.now().toString(), timestamp the current instant. -/
def mkHistoryEntry (now : Nat) (query response : String) : QueryHistory :=
  { id := toString now, query := query, response := response, timestamp := now }

/-- saveToHistory, in-memory part (line 89): prepend the new item and keep
the first 50. -/
def saveToHistory (now : Nat) (query response : String)
    (hist : List QueryHistory) : List QueryHistory :=
  (mkHistoryEntry now query response :: hist).take 50

/-- saveToHistory including the localStorage write (lines 89-91): the full
updated sequence is persisted as a JSON array. -/
def saveToHistoryStore (now : Nat) (query response : String)
    (hist : List QueryHistory) : List QueryHistory × Option StoredPayload :=
  let updated := saveToHistory now query response hist
  (updated, some (.jsonArray (updated.map serEntry)))

/-- The history load effect (lines 52-71): returns the resulting in-memory
history and the resulting stored payload. An empty string is falsy and
skipped; unparseable data throws inside JSON.parse and the catch removes
the key; a parsed non-array fails the Array.isArray guard and is left in
place; a parsed array is mapped entrywise without field validation. -/
def loadHistoryEffect (store : Option StoredPayload) :
    List QueryHistory × Option StoredPayload :=
  match store with
  | none => ([], none)
  | some .emptyString => ([], some .emptyString)
  | some .notJson => ([], none)
  | some .jsonNonArray => ([], some .jsonNonArray)
  | some (.jsonArray items) => (items.map deserEntry, some (.jsonArray items))

/-! ## Backend URL resolution -/

/-- JavaScript s or fallback on a string. -/
def jsOr (s fallback : String) : String :=
  if s = "" then fallback else s

/-- JavaScript x or fallback where x may be undefined. -/
def optJsOr (o : Option String) (fallback : String) : String :=
  match o with
  | none => fallback
  | some s => jsOr s fallback

/-- The backendUrl state initializer (lines 34-40): warns when the
environment value is absent, then continues with envUrl or the empty
string. -/
def backendUrlInit (envUrl : Option String) : String :=
  optJsOr envUrl ""

/-- The backend URL part of the mount effect (lines 74-78): throws a plain
Error when the environment value is falsy, otherwise stores it. -/
def backendUrlEffect (envUrl : Option String) : Except String String :=
  match envUrl with
  | none => .error "Missing NEXT_PUBLIC_API_URL environment variable"
  | some u =>
    if u = "" then .error "Missing NEXT_PUBLIC_API_URL environment variable"
    else .ok u

/-! ## Chat submission -/

/-- The POST body and target of the chat request (lines 114-127). -/
structure ChatRequest where
  url : String
  message : String
  history : List SerMsg
deriving DecidableEq, Repr

/-- How the awaited fetch settles, as observed by handleSubmit:
a 2xx response with optional response, model and tokens_used fields;
a non-2xx response whose error body either fails to parse (none) or
parses with an optional detail field; or a thrown network-level error. -/
inductive FetchOutcome
  | success (respText : Option String) (model : Option String) (tokens : Option Nat)
  | httpError (errDetail : Option (Option String))
  | networkError (msg : String)
deriving DecidableEq, Repr

/-- Component state touched by handleSubmit. -/
structure ChatState where
  messages : List Message
  input : String
  isLoading : Bool
  queryHistory : List QueryHistory
  backendUrl : String
deriving DecidableEq, Repr

/-- Result of one complete run of handleSubmit: the state after the
handler settles, the stored payload, whether fetch was invoked, the
request issued, and the message of the Error thrown inside the try block
if any. -/
structure SubmitResult where
  state : ChatState
  storage : Option StoredPayload
  fetchCalled : Bool
  request : Option ChatRequest
  thrownMessage : Option String
deriving DecidableEq, Repr

/-- The message of the Error thrown on a non-2xx response (lines 129-132):
the parsed error body, or a detail of Unknown error when parsing fails,
then errorData.detail or the generic fallback. -/
def chatErrorMessage (errDetail : Option (Option String)) : String :=
  let detail : Option String :=
    match errDetail with
    | none => some "Unknown error"
    | some d => d
  match detail with
  | none => "Failed to get response from backend"
  | some s => jsOr s "Failed to get response from backend"

/-- JavaScript String.prototype.trim, modelled structurally on the common
whitespace characters. -/
def isJsWhitespace (c : Char) : Bool :=
  c == ' ' || c == '\t' || c == '\n' || c == '\r'

def jsTrim (s : String) : String :=
  String.mk (((s.data.dropWhile isJsWhitespace).reverse.dropWhile
    isJsWhitespace).reverse)

/-- handleSubmit (lines 97-182), run to completion over one settled fetch
outcome. now is the submission instant, settleNow the instant the awaited
call settles (Date.now values). The guard returns early on blank input or
an in-flight request; otherwise the user message is appended, input
cleared and the in-flight flag set; the request body serializes the
pre-append messages (the closure value of messages); on success the
assistant message is appended and the exchange saved to history; the
finally block clears the in-flight flag on every path. -/
def handleSubmit (now settleNow : Nat) (st : ChatState)
    (store : Option StoredPayload) (out : FetchOutcome) : SubmitResult :=
  if jsTrim st.input = "" ∨ st.isLoading = true then
    { state := st, storage := store, fetchCalled := false
      request := none, thrownMessage := none }
  else
    let userMessage : Message :=
      { id := toString now, content := jsTrim st.input, role := .user, timestamp := now }
    let st1 : ChatState :=
      { st with messages := st.messages ++ [userMessage], input := "", isLoading := true }
    let req : ChatRequest :=
      { url := st.backendUrl ++ "/api/chat"
        message := userMessage.content
        history := st.messages.map serializeMsg }
    match out with
    | .success respText _model _tokens =>
      let assistantMessage : Message :=
        { id := toString (settleNow + 1)
          content := optJsOr respText "No response received"
          role := .assistant, timestamp := settleNow }
      let saved := saveToHistoryStore settleNow userMessage.content
        assistantMessage.content st1.queryHistory
      { state :=
          { st1 with
            messages := st1.messages ++ [assistantMessage]
            queryHistory := saved.1
            isLoading := false }
        storage := saved.2
        fetchCalled := true, request := some req, thrownMessage := none }
    | .httpError errDetail =>
      { state := { st1 with isLoading := false }
        storage := store
        fetchCalled := true, request := some req
        thrownMessage := some (chatErrorMessage errDetail) }
    | .networkError msg =>
      { state := { st1 with isLoading := false }
        storage := store
        fetchCalled := true, request := some req
        thrownMessage := some msg }

/-- The history store after a sequence of successful exchanges, each
given as (settle instant, query, response), starting from an empty store. -/
def historyAfterExchanges (xs : List (Nat × String × String)) : List QueryHistory :=
  xs.foldl (fun h x => saveToHistory x.1 x.2.1 x.2.2 h) []

end Qurious
namespace Qurious

/-! ## Shared helper lemmas -/

theorem take_append_take (A B : List QueryHistory) :
    (A ++ B.take 50).take 50 = (A ++ B).take 50 := by
  rw [List.take_append_eq_append_take, List.take_append_eq_append_take, List.take_take]
  congr 1
  rw [Nat.min_eq_left (by omega)]

theorem foldl_saveToHistory (xs : List (Nat × String × String)) :
    ∀ acc : List QueryHistory, acc.length ≤ 50 →
      xs.foldl (fun h x => saveToHistory x.1 x.2.1 x.2.2 h) acc
        = ((xs.map fun x => mkHistoryEntry x.1 x.2.1 x.2.2).reverse ++ acc).take 50 := by
  induction xs with
  | nil =>
    intro acc h
    simp only [List.foldl_nil, List.map_nil, List.reverse_nil, List.nil_append]
    exact (List.take_of_length_le h).symm
  | cons x xs ih =>
    intro acc hacc
    simp only [List.foldl_cons, List.map_cons, List.reverse_cons, List.append_assoc,
      List.singleton_append]
    rw [ih (saveToHistory x.1 x.2.1 x.2.2 acc)
      (by simp only [saveToHistory, List.length_take]; omega)]
    exact take_append_take _ _

theorem deserEntry_serEntry (e : QueryHistory) : deserEntry (serEntry e) = e := by
  cases e
  simp [deserEntry, serEntry, millisOfFields_fieldsOfMillis]

/-! ## Claims -/

/-- C1: starting from an empty store, after any sequence of successful
exchanges the History Store equals the most recent min(n,50) entries in
newest-first order; in particular each append keeps at most 50 entries
and the oldest are evicted first. -/
theorem history_cap_fifo (xs : List (Nat × String × String)) :
    historyAfterExchanges xs
        = ((xs.map fun x => mkHistoryEntry x.1 x.2.1 x.2.2).reverse).take 50
      ∧ (historyAfterExchanges xs).length = min 50 xs.length := by
  have h := foldl_saveToHistory xs [] (by simp)
  rw [List.append_nil] at h
  constructor
  · exact h
  · unfold historyAfterExchanges
    rw [h]
    simp only [List.length_take, List.length_reverse, List.length_map]

/-- C9: the load effect returns every entry of a well-formed persisted
array without truncation, whatever its length; the 50-entry cap is
applied only by saveToHistory when it constructs the next sequence. -/
theorem load_no_truncation :
    (∀ items : List SerEntry,
        (loadHistoryEffect (some (.jsonArray items))).1 = items.map deserEntry
      ∧ (loadHistoryEffect (some (.jsonArray items))).1.length = items.length)
  ∧ ∀ now q r h, (saveToHistory now q r h).length = min 50 (h.length + 1) := by
  constructor
  · intro items
    exact ⟨rfl, by simp [loadHistoryEffect]⟩
  · intro now q r h
    simp only [saveToHistory, List.length_take, List.length_cons]

/-- C7: persisting a sequence of history entries and loading it back
reproduces the same ordered sequence, timestamps exactly equal (hence
equal at least to the second). -/
theorem history_roundtrip (h : List QueryHistory) :
    (loadHistoryEffect (some (.jsonArray (h.map serEntry)))).1 = h := by
  simp only [loadHistoryEffect, List.map_map]
  have hcomp : deserEntry ∘ serEntry = id := funext deserEntry_serEntry
  rw [hcomp, List.map_id]

/-- C8: submitting input that trims to the empty string is a complete
no-op: state unchanged, no fetch, no request, nothing thrown. -/
theorem empty_input_noop (now settleNow : Nat) (st : ChatState)
    (store : Option StoredPayload) (out : FetchOutcome)
    (h : jsTrim st.input = "") :
    handleSubmit now settleNow st store out
      = { state := st, storage := store, fetchCalled := false,
          request := none, thrownMessage := none } := by
  simp [handleSubmit, h]

theorem empty_input_noop_witness :
    handleSubmit 3 4
        { messages := [], input := "   ", isLoading := false,
          queryHistory := [], backendUrl := "u" }
        none (.success (some "x") none none)
      = { state :=
            { messages := [], input := "   ", isLoading := false,
              queryHistory := [], backendUrl := "u" },
          storage := none, fetchCalled := false, request := none,
          thrownMessage := none } :=
  empty_input_noop 3 4 _ _ _ (by decide)

/-- C2 counterexample: a persisted payload that parses to a JSON
non-array yields an empty sequence but is NOT removed from storage,
contradicting the claimed removal side effect for every malformed
payload. -/
theorem load_malformed_counterexample :
    (loadHistoryEffect (some .jsonNonArray)).1 = []
      ∧ (loadHistoryEffect (some .jsonNonArray)).2 ≠ none := by
  exact ⟨rfl, by simp [loadHistoryEffect]⟩

/-- C2 (amended): a non-empty unparseable payload yields the empty
sequence and is removed from storage; a payload parsing to a JSON
non-array (and likewise a stored empty string) yields the empty sequence
but is left in place; in every case the store accepts a subsequent
append, which overwrites the key with the new array. -/
theorem load_malformed_amended (p : Option StoredPayload) :
    (p = some .notJson → loadHistoryEffect p = ([], none))
  ∧ (p = some .jsonNonArray →
      (loadHistoryEffect p).1 = [] ∧ (loadHistoryEffect p).2 = p)
  ∧ (p = some .emptyString →
      (loadHistoryEffect p).1 = [] ∧ (loadHistoryEffect p).2 = p)
  ∧ (∀ now q r,
      (saveToHistoryStore now q r (loadHistoryEffect p).1).2
        = some (.jsonArray
            ((saveToHistory now q r (loadHistoryEffect p).1).map serEntry))) := by
  refine ⟨?_, ?_, ?_, ?_⟩
  · intro h; subst h; rfl
  · intro h; subst h; exact ⟨rfl, rfl⟩
  · intro h; subst h; exact ⟨rfl, rfl⟩
  · intro now q r; rfl

theorem load_malformed_witness :
    loadHistoryEffect (some .notJson) = ([], none) :=
  (load_malformed_amended (some .notJson)).1 rfl

/-- C3 (documents the code bug): with the backend URL configuration
value absent, the state initializer continues with the empty string and
a submission from that state still invokes fetch against the empty
target (URL /api/chat); the mount effect throws a plain unhandled Error
instead of surfacing a configuration error with submission disabled. -/
theorem missing_backend_url_code_bug :
    backendUrlInit none = ""
  ∧ backendUrlEffect none
      = .error "Missing NEXT_PUBLIC_API_URL environment variable"
  ∧ (handleSubmit 1000 1001
        { messages := [], input := "hi", isLoading := false,
          queryHistory := [], backendUrl := backendUrlInit none }
        none (.success (some "ok") none none)).fetchCalled = true
  ∧ (handleSubmit 1000 1001
        { messages := [], input := "hi", isLoading := false,
          queryHistory := [], backendUrl := backendUrlInit none }
        none (.success (some "ok") none none)).request
      = some { url := "/api/chat", message := "hi", history := [] } := by
  refine ⟨rfl, rfl, by decide, by decide⟩

/-- C4: while the in-flight flag is set any further submission is a
no-op (state unchanged, fetch not invoked); and whenever fetch was
invoked, the flag is false again after the handler settles, on every
outcome. -/
theorem single_inflight_request (now settleNow : Nat) (st : ChatState)
    (store : Option StoredPayload) (out : FetchOutcome) :
    (st.isLoading = true →
        (handleSubmit now settleNow st store out).state = st
      ∧ (handleSubmit now settleNow st store out).fetchCalled = false)
  ∧ ((handleSubmit now settleNow st store out).fetchCalled = true →
      (handleSubmit now settleNow st store out).state.isLoading = false) := by
  constructor
  · intro h
    constructor <;> simp [handleSubmit, h]
  · intro h
    by_cases hg : jsTrim st.input = "" ∨ st.isLoading = true
    · simp [handleSubmit, hg] at h
    · cases out <;> simp [handleSubmit, hg]

theorem single_inflight_request_witness :
    (handleSubmit 1 2
        { messages := [], input := "x", isLoading := true,
          queryHistory := [], backendUrl := "u" } none (.networkError "boom")).state
      = { messages := [], input := "x", isLoading := true,
          queryHistory := [], backendUrl := "u" }
  ∧ (handleSubmit 3 4
        { messages := [], input := "y", isLoading := false,
          queryHistory := [], backendUrl := "u" } none
        (.networkError "boom")).state.isLoading = false :=
  ⟨((single_inflight_request 1 2 _ none (.networkError "boom")).1 rfl).1,
   (single_inflight_request 3 4 _ none (.networkError "boom")).2 (by decide)⟩

/-- C5 counterexample: an error body that parses with a detail field
equal to the empty string produces the thrown message
Failed to get response from backend, which is neither the detail value
nor the Unknown error fallback the claim prescribes for parsed payloads. -/
theorem http_error_message_counterexample :
    (handleSubmit 5 6
        { messages := [], input := "q", isLoading := false,
          queryHistory := [], backendUrl := "b" } none
        (.httpError (some (some "")))).thrownMessage
      = some "Failed to get response from backend"
  ∧ "Failed to get response from backend" ≠ ""
  ∧ "Failed to get response from backend" ≠ "Unknown error" := by
  exact ⟨by decide, by decide, by decide⟩

/-- C5 (amended): on a non-2xx response the thrown message is the parsed
detail when it is a non-empty string, Unknown error when the body fails
to parse, and the fixed fallback Failed to get response from backend
when the body parses without a non-empty detail; afterwards the user
message is in Conversation State, no assistant message was appended, the
History Store and its persisted copy are unchanged, and the in-flight
flag is cleared. -/
theorem http_error_failure (now settleNow : Nat) (st : ChatState)
    (store : Option StoredPayload) (errDetail : Option (Option String))
    (h1 : jsTrim st.input ≠ "") (h2 : st.isLoading = false) :
    (errDetail = none →
      (handleSubmit now settleNow st store (.httpError errDetail)).thrownMessage
        = some "Unknown error")
  ∧ (∀ d, errDetail = some (some d) → d ≠ "" →
      (handleSubmit now settleNow st store (.httpError errDetail)).thrownMessage
        = some d)
  ∧ ((errDetail = some none ∨ errDetail = some (some "")) →
      (handleSubmit now settleNow st store (.httpError errDetail)).thrownMessage
        = some "Failed to get response from backend")
  ∧ (handleSubmit now settleNow st store (.httpError errDetail)).state.messages
      = st.messages
        ++ [{ id := toString now, content := jsTrim st.input, role := .user,
              timestamp := now }]
  ∧ (handleSubmit now settleNow st store (.httpError errDetail)).state.queryHistory
      = st.queryHistory
  ∧ (handleSubmit now settleNow st store (.httpError errDetail)).storage = store
  ∧ (handleSubmit now settleNow st store (.httpError errDetail)).state.isLoading
      = false := by
  have hg : ¬ (jsTrim st.input = "" ∨ st.isLoading = true) := by
    simp [h1, h2]
  refine ⟨?_, ?_, ?_, ?_, ?_, ?_, ?_⟩
  · intro he; subst he; simp [handleSubmit, hg, chatErrorMessage, jsOr]
  · intro d he hd; subst he; simp [handleSubmit, hg, chatErrorMessage, jsOr, hd]
  · intro he
    rcases he with he | he <;> subst he <;>
      simp [handleSubmit, hg, chatErrorMessage, jsOr]
  · simp [handleSubmit, hg]
  · simp [handleSubmit, hg]
  · simp [handleSubmit, hg]
  · simp [handleSubmit, hg]

theorem http_error_failure_witness :
    (handleSubmit 7 8
        { messages := [], input := "q", isLoading := false,
          queryHistory := [], backendUrl := "b" } none
        (.httpError (some (some "model overloaded")))).thrownMessage
      = some "model overloaded" :=
  ((http_error_failure 7 8 _ none (some (some "model overloaded"))
      (by decide) rfl).2.1) "model overloaded" rfl (by decide)

/-- C6: the chat request posts to the api/chat path of the backend URL
with the trimmed input as message and each prior message serialized by
serializeMsg (role, content, ISO-8601 timestamp string); with empty
prior conversation the history field is the empty list; on success the
conversation becomes the prior messages, the user message, then the
assistant message carrying the response text; and the History Store
gains the entry pairing that query with that response at its head. -/
theorem chat_request_success (now settleNow : Nat) (st : ChatState)
    (store : Option StoredPayload) (respText : String)
    (model : Option String) (tokens : Option Nat)
    (h1 : jsTrim st.input ≠ "") (h2 : st.isLoading = false) (h3 : respText ≠ "") :
    (handleSubmit now settleNow st store (.success (some respText) model tokens)).request
      = some { url := st.backendUrl ++ "/api/chat", message := jsTrim st.input,
               history := st.messages.map serializeMsg }
  ∧ (st.messages = [] →
      (handleSubmit now settleNow st store (.success (some respText) model tokens)).request
        = some { url := st.backendUrl ++ "/api/chat", message := jsTrim st.input,
                 history := [] })
  ∧ (handleSubmit now settleNow st store
        (.success (some respText) model tokens)).state.messages
      = st.messages
        ++ [{ id := toString now, content := jsTrim st.input, role := .user,
              timestamp := now },
            { id := toString (settleNow + 1), content := respText,
              role := .assistant, timestamp := settleNow }]
  ∧ (handleSubmit now settleNow st store
        (.success (some respText) model tokens)).state.queryHistory
      = (mkHistoryEntry settleNow (jsTrim st.input) respText :: st.queryHistory).take 50
  ∧ (st.queryHistory = [] →
      (handleSubmit now settleNow st store
          (.success (some respText) model tokens)).state.queryHistory
        = [mkHistoryEntry settleNow (jsTrim st.input) respText]) := by
  have hg : ¬ (jsTrim st.input = "" ∨ st.isLoading = true) := by
    simp [h1, h2]
  refine ⟨?_, ?_, ?_, ?_, ?_⟩
  · simp [handleSubmit, hg]
  · intro he
    simp [handleSubmit, hg, he]
  · simp [handleSubmit, hg, saveToHistoryStore, optJsOr, jsOr, h3]
  · simp [handleSubmit, hg, saveToHistoryStore, saveToHistory, optJsOr, jsOr, h3,
      mkHistoryEntry]
  · intro he
    simp [handleSubmit, hg, saveToHistoryStore, saveToHistory, optJsOr, jsOr, h3,
      mkHistoryEntry, he]

theorem chat_request_success_witness :
    (handleSubmit 7 8
        { messages := [], input := "Hello!", isLoading := false,
          queryHistory := [], backendUrl := "hb" } none
        (.success (some "Hi there!") (some "llama-3.1-8b-instant") (some 10))).request
      = some { url := "hb" ++ "/api/chat", message := "Hello!", history := [] } :=
  (chat_request_success 7 8 _ none "Hi there!" (some "llama-3.1-8b-instant") (some 10)
      (by decide) rfl (by decide)).2.1 rfl

/-- C10: a 2xx response whose response field is present but equal to the
empty string leads to the placeholder No response received as the
assistant message content, both in Conversation State and as the
response recorded in the new History Store entry. -/
theorem empty_response_placeholder (now settleNow : Nat) (st : ChatState)
    (store : Option StoredPayload) (model : Option String) (tokens : Option Nat)
    (h1 : jsTrim st.input ≠ "") (h2 : st.isLoading = false) :
    (handleSubmit now settleNow st store (.success (some "") model tokens)).state.messages
      = st.messages
        ++ [{ id := toString now, content := jsTrim st.input, role := .user,
              timestamp := now },
            { id := toString (settleNow + 1), content := "No response received",
              role := .assistant, timestamp := settleNow }]
  ∧ (handleSubmit now settleNow st store
        (.success (some "") model tokens)).state.queryHistory
      = (mkHistoryEntry settleNow (jsTrim st.input) "No response received"
          :: st.queryHistory).take 50
  ∧ (handleSubmit now settleNow st store
        (.success (some "") model tokens)).state.queryHistory.head?
      = some (mkHistoryEntry settleNow (jsTrim st.input) "No response received") := by
  have hg : ¬ (jsTrim st.input = "" ∨ st.isLoading = true) := by
    simp [h1, h2]
  refine ⟨?_, ?_, ?_⟩
  · simp [handleSubmit, hg, saveToHistoryStore, optJsOr, jsOr]
  · simp [handleSubmit, hg, saveToHistoryStore, saveToHistory, optJsOr, jsOr,
      mkHistoryEntry]
  · simp [handleSubmit, hg, saveToHistoryStore, saveToHistory, optJsOr, jsOr,
      mkHistoryEntry, List.take_succ_cons]

theorem empty_response_placeholder_witness :
    (handleSubmit 9 10
        { messages := [], input := "ping", isLoading := false,
          queryHistory := [], backendUrl := "b" } none
        (.success (some "") none none)).state.queryHistory.head?
      = some (mkHistoryEntry 10 "ping" "No response received") :=
  (empty_response_placeholder 9 10 _ none none none (by decide) rfl).2.2

end Qurious
